import Mathlib

/-!
# Backup worker (`internal/workers/backup.go`)

A shallow embedding of `Backup.Start` as a state-passing function on a `World`
that holds the process-wide gate `mutex.BackupWorker`, the worker field
`lastRun`, the number of wall-clock reads made so far and the trace of the
externally visible effects. The collaborators the worker only calls
(`photoprism.BackupIndex`, `photoprism.BackupAlbums`, the wall clock, a
concurrent cancellation request) are inputs, collected in `Env`.
-/

namespace Workers

/-- Errors that `Backup.Start` can hold in its named result `err`. -/
inductive Error where
  /-- The error returned by `mutex.BackupWorker.Start()` when the gate is held. -/
  | alreadyRunning
  /-- The value of `errors.New("backup: canceled")`. -/
  | canceled
  /-- The value of `fmt.Errorf("backup: %s (worker panic)\nstack: %s", r, debug.Stack())`. -/
  | workerPanic (r : String)
  /-- An error returned by the index backup provider. -/
  | provider (msg : String)
  deriving DecidableEq, Repr

/-- How a call into other code ends: it returns a value or it panics with `r`. -/
inductive Outcome (α : Type) where
  | ret (a : α)
  | panic (r : String)
  deriving DecidableEq, Repr

/-- Log levels used by the worker. -/
inductive Level where
  | debug
  | info
  | error
  deriving DecidableEq, Repr

/-- The log lines of `backup.go`, one constructor per format string. -/
inductive LogMsg where
  /-- Line 60: `backup: creating index and album backups`. -/
  | creatingIndexAndAlbums
  /-- Line 62: `backup: creating index backup`. -/
  | creatingIndex
  /-- Line 64: `backup: creating album backup`. -/
  | creatingAlbums
  /-- Line 71: `backup: %s (index)`. -/
  | indexFailed (e : String)
  /-- Line 81: `creating album YAML files in %s`. -/
  | creatingAlbumFiles (path : String)
  /-- Line 84: `backup: %s (albums)`. -/
  | albumsFailed (e : String)
  /-- Line 86: `backup: %d albums saved as yaml files`. -/
  | albumsSaved (count : Int)
  /-- Line 96: `backup: completed in %s`. -/
  | completed (elapsed : Int)
  /-- Line 39: `log.Error(err)` in the deferred recover handler. -/
  | failure (e : Error)
  deriving DecidableEq, Repr

/-- Externally visible effects of a run, in the order they happen. -/
inductive Event where
  /-- A call of `mutex.BackupWorker.Start()`. -/
  | gateStart
  /-- A call of `mutex.BackupWorker.Stop()`. -/
  | gateStop
  /-- A call of `photoprism.BackupIndex(backupPath, fileName, toStdOut, force, retain)`. -/
  | backupIndex (path label : String) (flag force : Bool) (retain : Int)
  /-- A call of `photoprism.BackupAlbums(backupPath, force)`. -/
  | backupAlbums (path : String) (force : Bool)
  /-- An assignment to `w.lastRun`. -/
  | setLastRun (t : Nat)
  /-- A line handed to the logger. -/
  | log (lvl : Level) (msg : LogMsg)
  deriving DecidableEq, Repr

/-- Modelled from the spec: the type of `mutex.BackupWorker` (package
`internal/mutex`, not among the sources). Section 3: the gate "tracks whether
a backup run is currently active and whether a cancellation has been
requested". -/
structure Activity where
  held : Bool
  canceled : Bool
  deriving DecidableEq, Repr

/-- Modelled from the spec: `mutex.BackupWorker.Start()` (package
`internal/mutex`, not among the sources). Section 4.1: `acquire()` "fails with
`AlreadyRunning` if another run currently holds the gate; otherwise marks the
gate held". -/
def Activity.Start (g : Activity) : Except Error Activity :=
  if g.held then .error Error.alreadyRunning else .ok { g with held := true }

/-- Modelled from the spec: `mutex.BackupWorker.Stop()` (package
`internal/mutex`, not among the sources). Section 4.1: `release()`
"idempotently clears the held flag". -/
def Activity.Stop (g : Activity) : Activity :=
  { g with held := false }

/-- Modelled from the spec: `mutex.BackupWorker.Canceled()` (package
`internal/mutex`, not among the sources). Section 4.1: `isCanceled()` "returns
whether an external cancellation request is pending for the current holder;
does not block". -/
def Activity.Canceled (g : Activity) : Bool :=
  g.canceled

/-- The part of `config.Config` that `Start` reads. -/
structure Config where
  /-- The value of `conf.BackupIndexPath()`. -/
  backupIndexPath : String
  /-- The value of `conf.BackupAlbumsPath()`. -/
  backupAlbumsPath : String
  deriving DecidableEq, Repr

/-- The `Backup` worker struct: `conf` and `lastRun` (a time as a number of
clock units, zero for the zero `time.Time`). -/
structure Backup where
  conf : Config
  lastRun : Nat
  deriving DecidableEq, Repr

/-- Everything outside the worker that a run depends on. -/
structure Env where
  /-- The wall clock: `clock n` is what the `n`-th read of the current time
  made during the run yields. -/
  clock : Nat → Nat
  /-- The index-backup provider `photoprism.BackupIndex`: for its arguments,
  the returned error (`none` for `nil`) or a panic. -/
  backupIndex : String → String → Bool → Bool → Int → Outcome (Option String)
  /-- The album-export provider `photoprism.BackupAlbums`: for its arguments,
  the returned count and error (`none` for `nil`) or a panic. -/
  backupAlbums : String → Bool → Outcome (Int × Option String)
  /-- Whether another goroutine requests cancellation of the running backup
  between the acquisition of the gate and the checkpoint of line 74. -/
  cancelDuringIndex : Bool

/-- The mutable state a run works on. -/
structure World where
  /-- The process-wide gate `mutex.BackupWorker`. -/
  gate : Activity
  /-- The worker `w`. -/
  worker : Backup
  /-- How many times the wall clock has been read. -/
  ticks : Nat
  /-- The effects so far, oldest first. -/
  trace : List Event
  deriving DecidableEq, Repr

/-- Append an effect to the trace. -/
def World.emit (s : World) (e : Event) : World :=
  { s with trace := s.trace ++ [e] }

/-- Read the wall clock (`time.Now()`): the reading and the advanced counter. -/
def World.now (env : Env) (s : World) : Nat × World :=
  (env.clock s.ticks, { s with ticks := s.ticks + 1 })

/-- Modelled from the spec: `entity.TimeStamp()` (package `internal/entity`,
not among the sources). Section 4.2, step 7: "update `lastRun` to the current
time". -/
def TimeStamp (env : Env) (s : World) : Nat × World :=
  s.now env

/-- Lines 59-65: the message saying which targets will be created. -/
def startMessage (index albums : Bool) : LogMsg :=
  if index && albums then LogMsg.creatingIndexAndAlbums
  else if index then LogMsg.creatingIndex
  else LogMsg.creatingAlbums

/-- Lines 67-72: the index stage. Returns the state after it and the value of
the named result `err`, or the panic of the provider. While the provider runs
a concurrent cancellation request may reach the gate. -/
def indexStage (env : Env) (backupPath : String) (index force : Bool) (retain : Int)
    (s : World) : World × Outcome (Option Error) :=
  let arrive (s : World) : World :=
    if env.cancelDuringIndex then { s with gate := { s.gate with canceled := true } } else s
  if !index then
    (arrive s, .ret none)
  else
    let s := arrive (s.emit (.backupIndex backupPath "" false force retain))
    match env.backupIndex backupPath "" false force retain with
    | .panic r => (s, .panic r)
    | .ret none => (s, .ret none)
    | .ret (some e) => (s.emit (.log .error (.indexFailed e)), .ret (some (Error.provider e)))

/-- Lines 78-88: the album stage. Returns the state after it, or the panic of
the provider. -/
def albumStage (env : Env) (w : Config) (albums force : Bool)
    (s : World) : World × Outcome Unit :=
  if albums then
    let albumsBackupPath := w.backupAlbumsPath
    let s := s.emit (.log .info (.creatingAlbumFiles albumsBackupPath))
    let s := s.emit (.backupAlbums albumsBackupPath force)
    match env.backupAlbums albumsBackupPath force with
    | .panic r => (s, .panic r)
    | .ret (_, some backupErr) => (s.emit (.log .error (.albumsFailed backupErr)), .ret ())
    | .ret (count, none) =>
      if count > 0 then (s.emit (.log .debug (.albumsSaved count)), .ret ())
      else (s, .ret ())
  else
    (s, .ret ())

/-- Lines 55-98: the run once the gate is acquired, up to its `return` or its
panic; the deferred calls are not part of it. -/
def run (env : Env) (index albums force : Bool) (retain : Int)
    (s : World) : World × Outcome (Option Error) :=
  let (start, s) := s.now env
  let backupPath := s.worker.conf.backupIndexPath
  let s := s.emit (.log .info (startMessage index albums))
  match indexStage env backupPath index force retain s with
  | (s, .panic r) => (s, .panic r)
  | (s, .ret _) =>
    if s.gate.Canceled then
      (s, .ret (some Error.canceled))
    else
      match albumStage env s.worker.conf albums force s with
      | (s, .panic r) => (s, .panic r)
      | (s, .ret ()) =>
        let (t, s) := TimeStamp env s
        let s := { s with worker := { s.worker with lastRun := t } }
        let s := s.emit (.setLastRun t)
        let (n, s) := s.now env
        let elapsed : Int := (n : Int) - (start : Int)
        let s := s.emit (.log .info (.completed elapsed))
        (s, .ret none)

/-- Lines 43-98 with the deferred `mutex.BackupWorker.Stop()` of line 53: the
body of `Start` up to its `return` or its panic. -/
def body (env : Env) (index albums force : Bool) (retain : Int)
    (s : World) : World × Outcome (Option Error) :=
  if !index && !albums then
    (s, .ret none)
  else
    let s := s.emit .gateStart
    match s.gate.Start with
    | .error err => (s, .ret (some err))
    | .ok g =>
      let (s, out) := run env index albums force retain { s with gate := g }
      (({ s with gate := s.gate.Stop }).emit .gateStop, out)

/-- `Backup.Start`: the body, then the deferred handler of lines 36-41, which
turns a panic into the returned error and logs it. The result is the state
after the call and the returned `err` (`none` for `nil`). -/
def Start (env : Env) (index albums force : Bool) (retain : Int)
    (s : World) : World × Option Error :=
  match body env index albums force retain s with
  | (s, .ret err) => (s, err)
  | (s, .panic r) =>
    let err := Error.workerPanic r
    (s.emit (.log .error (.failure err)), some err)

/-- The provider calls of a trace, in order. -/
def providerCalls (tr : List Event) : List Event :=
  tr.filter fun e =>
    match e with
    | .backupIndex .. => true
    | .backupAlbums .. => true
    | _ => false

/-- The assignments to `lastRun` in a trace, in order. -/
def lastRunWrites (tr : List Event) : List Nat :=
  tr.filterMap fun e =>
    match e with
    | .setLastRun t => some t
    | _ => none

/-- Whether a provider outcome is a return (with or without an error). -/
def Outcome.isRet {α : Type} : Outcome α → Bool
  | .ret _ => true
  | .panic _ => false

/-- Whether a run on these inputs reaches line 98: a target is requested, the
gate is free at entry, no cancellation is seen at the checkpoint, and the
providers that are called return. -/
def completes (env : Env) (index albums force : Bool) (retain : Int) (s : World) : Bool :=
  (index || albums) && !s.gate.held
    && !(s.gate.canceled || env.cancelDuringIndex)
    && (!index || (env.backupIndex s.worker.conf.backupIndexPath "" false force retain).isRet)
    && (!albums || (env.backupAlbums s.worker.conf.backupAlbumsPath force).isRet)

/-- The provider calls section 4.2 of the specification prescribes (steps 4
and 6): the index call if wanted, then the album call if wanted and no
cancellation was seen. -/
def referenceCalls (conf : Config) (index albums force : Bool) (retain : Int)
    (canceled : Bool) : List Event :=
  (if index then [Event.backupIndex conf.backupIndexPath "" false force retain] else [])
    ++ (if albums && !canceled then [Event.backupAlbums conf.backupAlbumsPath force] else [])

/-- A configuration with two backup destinations. -/
def conf0 : Config :=
  { backupIndexPath := "/backup/index", backupAlbumsPath := "/backup/albums" }

/-- A fresh world: gate free, no cancellation pending, `lastRun` zero. -/
def world0 : World :=
  { gate := { held := false, canceled := false }, worker := { conf := conf0, lastRun := 0 },
    ticks := 0, trace := [] }

/-- A world in which another run holds the gate. -/
def worldHeld : World :=
  { world0 with gate := { held := true, canceled := false } }

/-- An environment in which both providers succeed and nobody cancels. -/
def envOk : Env :=
  { clock := fun n => 100 + n
    backupIndex := fun _ _ _ _ _ => .ret none
    backupAlbums := fun _ _ => .ret (3, none)
    cancelDuringIndex := false }

/-- As `envOk`, with the index provider returning an error. -/
def envIndexFails : Env :=
  { envOk with backupIndex := fun _ _ _ _ _ => .ret (some "disk full") }

/-- As `envIndexFails`, with the album provider panicking. -/
def envAlbumFaults : Env :=
  { envIndexFails with backupAlbums := fun _ _ => .panic "boom" }

/-- As `envOk`, with a cancellation request arriving during the index stage. -/
def envCancel : Env :=
  { envOk with cancelDuringIndex := true }

/-- **C2.** With neither target requested, `Start` returns `nil` and leaves the
whole state as it was: the gate (held or free, canceled or not) is not touched,
no provider is called, nothing is logged and `lastRun` keeps its value. -/
theorem Start_noop (env : Env) (force : Bool) (retain : Int) (s : World) :
    Start env false false force retain s = (s, none) := by
  simp [Start, body]

/-- **C1.** With a target requested and the gate held at entry, `Start` returns
the gate's `alreadyRunning` error; its only effect is the failed call of the
gate: no provider call, the gate as it was (still held), no write of
`lastRun`. -/
theorem Start_already_running (env : Env) (index albums force : Bool) (retain : Int)
    (s : World) (hreq : index = true ∨ albums = true) (hheld : s.gate.held = true) :
    (Start env index albums force retain s).2 = some Error.alreadyRunning
      ∧ (Start env index albums force retain s).1.trace = s.trace ++ [Event.gateStart]
      ∧ providerCalls (Start env index albums force retain s).1.trace = providerCalls s.trace
      ∧ (Start env index albums force retain s).1.gate = s.gate
      ∧ (Start env index albums force retain s).1.gate.held = true
      ∧ (Start env index albums force retain s).1.worker.lastRun = s.worker.lastRun
      ∧ lastRunWrites (Start env index albums force retain s).1.trace
          = lastRunWrites s.trace := by
  rcases hreq with h | h <;> subst h <;>
    simp [Start, body, World.emit, Activity.Start, hheld, providerCalls, lastRunWrites,
      List.filter_append, List.filterMap_append]

/-- Witness of `Start_already_running`: a full run requested while another run
holds the gate. -/
theorem Start_already_running_witness :
    worldHeld.gate.held = true
      ∧ (Start envOk true true true 3 worldHeld).2 = some Error.alreadyRunning
      ∧ (Start envOk true true true 3 worldHeld).1.gate.held = true :=
  ⟨rfl, (Start_already_running envOk true true true 3 worldHeld (Or.inl rfl) rfl).1,
    (Start_already_running envOk true true true 3 worldHeld (Or.inl rfl) rfl).2.2.2.2.1⟩

/-- **C6.** Whatever is requested, whatever the cancellation flag and however
each provider ends (success, error or panic): if the gate is free when `Start`
is called, it is free when `Start` returns. -/
theorem Start_gate_free_after (env : Env) (index albums force : Bool) (retain : Int)
    (s : World) (hfree : s.gate.held = false) :
    (Start env index albums force retain s).1.gate.held = false := by
  rcases s with ⟨⟨held, canc⟩, ⟨conf, lr⟩, ticks, tr⟩
  simp only at hfree
  subst hfree
  rcases hi : env.backupIndex conf.backupIndexPath "" false force retain with (_ | e) | r <;>
  rcases ha : env.backupAlbums conf.backupAlbumsPath force with ⟨c, (_ | e')⟩ | r' <;>
  cases index <;> cases albums <;> cases hc : env.cancelDuringIndex <;> cases canc <;>
    simp [Start, body, run, indexStage, albumStage, TimeStamp, World.now, World.emit,
      Activity.Start, Activity.Stop, Activity.Canceled, hi, ha, hc] <;>
    split_ifs <;> simp

/-- Witness of `Start_gate_free_after`: the album provider panics. -/
theorem Start_gate_free_after_witness :
    world0.gate.held = false
      ∧ (Start envAlbumFaults true true true 0 world0).1.gate.held = false :=
  ⟨rfl, Start_gate_free_after envAlbumFaults true true true 0 world0 rfl⟩

/-- **C4.** With a target requested, the gate free at entry and the index
provider returning (with or without an error) when it is called: if the
cancellation flag is set at the checkpoint, `Start` returns the `canceled`
error, the provider calls of the run are the index call alone (none when the
index is not wanted), so the album provider is not called, `lastRun` is not
written, and the gate is free afterwards. -/
theorem Start_canceled (env : Env) (index albums force : Bool) (retain : Int) (s : World)
    (hreq : index = true ∨ albums = true) (hfree : s.gate.held = false)
    (hidx : index = true →
      (env.backupIndex s.worker.conf.backupIndexPath "" false force retain).isRet = true)
    (hcanc : s.gate.canceled = true ∨ env.cancelDuringIndex = true) :
    (Start env index albums force retain s).2 = some Error.canceled
      ∧ providerCalls (Start env index albums force retain s).1.trace
          = providerCalls s.trace
            ++ (if index then
                  [Event.backupIndex s.worker.conf.backupIndexPath "" false force retain]
                else [])
      ∧ (∀ p f, Event.backupAlbums p f ∈ (Start env index albums force retain s).1.trace →
          Event.backupAlbums p f ∈ s.trace)
      ∧ (Start env index albums force retain s).1.worker.lastRun = s.worker.lastRun
      ∧ lastRunWrites (Start env index albums force retain s).1.trace = lastRunWrites s.trace
      ∧ (Start env index albums force retain s).1.gate.held = false := by
  rcases s with ⟨⟨held, canc⟩, ⟨conf, lr⟩, ticks, tr⟩
  simp only at hfree hidx hcanc
  subst hfree
  rcases hi : env.backupIndex conf.backupIndexPath "" false force retain with (_ | e) | r <;>
  rcases ha : env.backupAlbums conf.backupAlbumsPath force with ⟨c, (_ | e')⟩ | r' <;>
  cases index <;> cases albums <;> cases hc : env.cancelDuringIndex <;> cases canc <;>
    simp [hi, hc, Outcome.isRet] at hreq hidx hcanc <;>
    simp [Start, body, run, indexStage, albumStage, TimeStamp, World.now, World.emit,
      Activity.Start, Activity.Stop, Activity.Canceled, hi, ha, hc, providerCalls,
      lastRunWrites, List.filter_append, List.filterMap_append]

/-- Witness of `Start_canceled`: both targets requested, cancellation arrives
while the index backup runs. -/
theorem Start_canceled_witness :
    (Start envCancel true true false 5 world0).2 = some Error.canceled
      ∧ providerCalls (Start envCancel true true false 5 world0).1.trace
          = [Event.backupIndex "/backup/index" "" false false 5] :=
  ⟨(Start_canceled envCancel true true false 5 world0 (Or.inl rfl) rfl (fun _ => rfl)
      (Or.inr rfl)).1,
    (Start_canceled envCancel true true false 5 world0 (Or.inl rfl) rfl (fun _ => rfl)
      (Or.inr rfl)).2.1⟩

/-- **C3, as stated, fails.** The gate is free, no cancellation is pending and
the index provider returns an error, yet `Start(true, true, true, 0)` does not
return `nil`: the album provider panics and the deferred handler turns the
panic into the returned error. -/
theorem Start_index_error_album_fault :
    world0.gate.held = false ∧ world0.gate.canceled = false
      ∧ envAlbumFaults.cancelDuringIndex = false
      ∧ envAlbumFaults.backupIndex world0.worker.conf.backupIndexPath "" false true 0
          = Outcome.ret (some "disk full")
      ∧ (Start envAlbumFaults true true true 0 world0).2 = some (Error.workerPanic "boom")
      ∧ (Start envAlbumFaults true true true 0 world0).2 ≠ none := by
  refine ⟨rfl, rfl, rfl, rfl, ?_, ?_⟩ <;>
    simp [Start, body, run, indexStage, albumStage, World.now, World.emit,
      Activity.Start, Activity.Stop, Activity.Canceled, envAlbumFaults, envIndexFails, envOk,
      world0, conf0]

/-- **C3, amended.** With the gate free, no cancellation pending, the index
wanted and the index provider returning an error `e`: whatever the album
provider does, the provider calls of the run are the index call followed by
the album call exactly when albums are wanted, the gate is free afterwards,
and `Start` does not return the index provider's error. If moreover the album
provider does not panic when it is called, `Start` returns `nil`. -/
theorem Start_index_error (env : Env) (albums force : Bool) (retain : Int) (s : World)
    (e : String) (hfree : s.gate.held = false) (hflag : s.gate.canceled = false)
    (hquiet : env.cancelDuringIndex = false)
    (hidx : env.backupIndex s.worker.conf.backupIndexPath "" false force retain
      = Outcome.ret (some e)) :
    providerCalls (Start env true albums force retain s).1.trace
        = providerCalls s.trace
          ++ Event.backupIndex s.worker.conf.backupIndexPath "" false force retain
            :: (if albums then [Event.backupAlbums s.worker.conf.backupAlbumsPath force]
                else [])
      ∧ (Start env true albums force retain s).1.gate.held = false
      ∧ (Start env true albums force retain s).2 ≠ some (Error.provider e)
      ∧ ((albums = true →
            (env.backupAlbums s.worker.conf.backupAlbumsPath force).isRet = true)
          → (Start env true albums force retain s).2 = none) := by
  rcases s with ⟨⟨held, canc⟩, ⟨conf, lr⟩, ticks, tr⟩
  simp only at hfree hflag hidx
  subst hfree hflag
  rcases ha : env.backupAlbums conf.backupAlbumsPath force with ⟨c, (_ | e')⟩ | r' <;>
  cases albums <;>
    simp [Start, body, run, indexStage, albumStage, TimeStamp, World.now, World.emit,
      Activity.Start, Activity.Stop, Activity.Canceled, hidx, ha, hquiet, providerCalls,
      List.filter_append, Outcome.isRet]
  split_ifs <;> simp [List.filter_append]

/-- Witness of `Start_index_error`: the index provider fails in a run of both
targets, once with the album provider returning (`Start` returns `nil`) and
once with the album provider panicking (the album call is still made); and the
scenario `Start(true, false, true, 0)` with the index provider failing. -/
theorem Start_index_error_witness :
    (Start envIndexFails true true true 0 world0).2 = none
      ∧ providerCalls (Start envIndexFails true true true 0 world0).1.trace
          = [Event.backupIndex "/backup/index" "" false true 0,
              Event.backupAlbums "/backup/albums" true]
      ∧ providerCalls (Start envAlbumFaults true true true 0 world0).1.trace
          = [Event.backupIndex "/backup/index" "" false true 0,
              Event.backupAlbums "/backup/albums" true]
      ∧ (Start envAlbumFaults true true true 0 world0).1.gate.held = false
      ∧ (Start envIndexFails true false true 0 world0).2 = none :=
  ⟨(Start_index_error envIndexFails true true 0 world0 "disk full" rfl rfl rfl rfl).2.2.2
      (fun _ => rfl),
    (Start_index_error envIndexFails true true 0 world0 "disk full" rfl rfl rfl rfl).1,
    (Start_index_error envAlbumFaults true true 0 world0 "disk full" rfl rfl rfl rfl).1,
    (Start_index_error envAlbumFaults true true 0 world0 "disk full" rfl rfl rfl rfl).2.1,
    (Start_index_error envIndexFails false true 0 world0 "disk full" rfl rfl rfl rfl).2.2.2
      (fun h => absurd h (by decide))⟩

/-- **C5.** With albums wanted, the gate free and no cancellation pending: if
the album provider panics with `r`, `Start` returns (the panic does not leave
it) a `workerPanic` error, not `nil`, and the gate is free afterwards. When the
index is not wanted or the index provider returns, the error carries the album
provider's `r`. -/
theorem Start_album_fault (env : Env) (index force : Bool) (retain : Int) (s : World)
    (r : String) (hfree : s.gate.held = false) (hflag : s.gate.canceled = false)
    (hquiet : env.cancelDuringIndex = false)
    (halb : env.backupAlbums s.worker.conf.backupAlbumsPath force = Outcome.panic r) :
    (∃ r', (Start env index true force retain s).2 = some (Error.workerPanic r'))
      ∧ (Start env index true force retain s).2 ≠ none
      ∧ (Start env index true force retain s).1.gate.held = false
      ∧ ((index = true →
            (env.backupIndex s.worker.conf.backupIndexPath "" false force retain).isRet = true)
          → (Start env index true force retain s).2 = some (Error.workerPanic r)
            ∧ Event.backupAlbums s.worker.conf.backupAlbumsPath force
                ∈ (Start env index true force retain s).1.trace) := by
  rcases s with ⟨⟨held, canc⟩, ⟨conf, lr⟩, ticks, tr⟩
  simp only at hfree hflag halb
  subst hfree hflag
  rcases hi : env.backupIndex conf.backupIndexPath "" false force retain with (_ | e) | r0 <;>
  cases index <;>
    simp [Start, body, run, indexStage, albumStage, TimeStamp, World.now, World.emit,
      Activity.Start, Activity.Stop, Activity.Canceled, hi, halb, hquiet, Outcome.isRet]

/-- Witness of `Start_album_fault`: the index backup fails with an error, then
the album provider panics. -/
theorem Start_album_fault_witness :
    (Start envAlbumFaults true true true 0 world0).2 ≠ none
      ∧ (Start envAlbumFaults true true true 0 world0).1.gate.held = false :=
  ⟨(Start_album_fault envAlbumFaults true true 0 world0 "boom" rfl rfl rfl rfl).2.1,
    (Start_album_fault envAlbumFaults true true 0 world0 "boom" rfl rfl rfl rfl).2.2.1⟩

/-- **C7.** When a run completes (a target requested, gate acquired, no
cancellation seen, no panic) and the clock does not go backwards, the value of
`lastRun` after `Start` is at least the start time of the run, which is the
clock reading `env.clock s.ticks` taken right after the gate was acquired. -/
theorem Start_lastRun_ge_start (env : Env) (index albums force : Bool) (retain : Int)
    (s : World) (hdone : completes env index albums force retain s = true)
    (hclock : Monotone env.clock) :
    env.clock s.ticks ≤ (Start env index albums force retain s).1.worker.lastRun := by
  have hstep : env.clock s.ticks ≤ env.clock (s.ticks + 1) := hclock (Nat.le_succ _)
  rcases s with ⟨⟨held, canc⟩, ⟨conf, lr⟩, ticks, tr⟩
  simp only [completes] at hdone
  simp only at hstep
  rcases hi : env.backupIndex conf.backupIndexPath "" false force retain with (_ | e) | r <;>
  rcases ha : env.backupAlbums conf.backupAlbumsPath force with ⟨c, (_ | e')⟩ | r' <;>
  cases index <;> cases albums <;> cases hc : env.cancelDuringIndex <;> cases canc <;>
  cases held <;>
    simp [hi, ha, hc, Outcome.isRet] at hdone <;>
    simp [Start, body, run, indexStage, albumStage, TimeStamp, World.now, World.emit,
      Activity.Start, Activity.Stop, Activity.Canceled, hi, ha, hc] <;>
    (try split_ifs) <;> exact hstep

/-- Witness of `Start_lastRun_ge_start`: a full run with both providers
succeeding on a clock that advances by one unit per reading. -/
theorem Start_lastRun_ge_start_witness :
    completes envOk true true false 5 world0 = true
      ∧ envOk.clock world0.ticks ≤ (Start envOk true true false 5 world0).1.worker.lastRun :=
  ⟨rfl, Start_lastRun_ge_start envOk true true false 5 world0 rfl
    (fun _ _ h => Nat.add_le_add_left h 100)⟩

/-- **C8.** `Start` writes `lastRun` exactly when the run completes: the
assignments to `lastRun` during the call are the single timestamp
`env.clock (s.ticks + 1)` (the clock reading of line 91) when it completes and
none otherwise, and `lastRun` afterwards is that timestamp, respectively its
old value. A run completes exactly when a target is requested and `Start`
returns `nil`, whether or not a provider returned an error. -/
theorem Start_lastRun_written_iff (env : Env) (index albums force : Bool) (retain : Int)
    (s : World) :
    lastRunWrites (Start env index albums force retain s).1.trace
        = lastRunWrites s.trace
          ++ (if completes env index albums force retain s then [env.clock (s.ticks + 1)]
              else [])
      ∧ (Start env index albums force retain s).1.worker.lastRun
        = (if completes env index albums force retain s then env.clock (s.ticks + 1)
           else s.worker.lastRun)
      ∧ (completes env index albums force retain s = true
          ↔ (index = true ∨ albums = true)
            ∧ (Start env index albums force retain s).2 = none) := by
  rcases s with ⟨⟨held, canc⟩, ⟨conf, lr⟩, ticks, tr⟩
  rcases hi : env.backupIndex conf.backupIndexPath "" false force retain with (_ | e) | r <;>
  rcases ha : env.backupAlbums conf.backupAlbumsPath force with ⟨c, (_ | e')⟩ | r' <;>
  cases index <;> cases albums <;> cases hc : env.cancelDuringIndex <;> cases canc <;>
  cases held <;>
    simp [Start, body, run, indexStage, albumStage, TimeStamp, World.now, World.emit,
      Activity.Start, Activity.Stop, Activity.Canceled, hi, ha, hc, completes, Outcome.isRet,
      lastRunWrites, List.filterMap_append] <;>
    split_ifs <;> simp [List.filterMap_append]

/-- **C9.** When each provider that is called returns (with or without an
error), `Start` fails exactly when a target is requested and the gate is held
at entry or the cancellation flag is set at the checkpoint. The returned value
is given by the request, the gate and the cancellation flag alone: it does not
depend on what the providers returned. -/
theorem Start_fails_iff (env : Env) (index albums force : Bool) (retain : Int) (s : World)
    (hidx : index = true →
      (env.backupIndex s.worker.conf.backupIndexPath "" false force retain).isRet = true)
    (halb : albums = true →
      (env.backupAlbums s.worker.conf.backupAlbumsPath force).isRet = true) :
    ((Start env index albums force retain s).2 ≠ none
        ↔ (index = true ∨ albums = true)
          ∧ (s.gate.held = true ∨ s.gate.canceled = true ∨ env.cancelDuringIndex = true))
      ∧ (Start env index albums force retain s).2
        = (if !index && !albums then none
           else if s.gate.held then some Error.alreadyRunning
           else if s.gate.canceled || env.cancelDuringIndex then some Error.canceled
           else none) := by
  rcases s with ⟨⟨held, canc⟩, ⟨conf, lr⟩, ticks, tr⟩
  simp only at hidx halb
  rcases hi : env.backupIndex conf.backupIndexPath "" false force retain with (_ | e) | r <;>
  rcases ha : env.backupAlbums conf.backupAlbumsPath force with ⟨c, (_ | e')⟩ | r' <;>
  cases index <;> cases albums <;> cases hc : env.cancelDuringIndex <;> cases canc <;>
  cases held <;>
    simp [hi, ha, Outcome.isRet] at hidx halb <;>
    simp [Start, body, run, indexStage, albumStage, TimeStamp, World.now, World.emit,
      Activity.Start, Activity.Stop, Activity.Canceled, hi, ha, hc] <;>
    split_ifs <;> simp

/-- Witness of `Start_fails_iff`: both providers return an error in a run that
is neither rejected nor canceled, and `Start` returns `nil`. -/
theorem Start_fails_iff_witness :
    (Start { envIndexFails with backupAlbums := fun _ _ => .ret (0, some "read-only") }
      true true true 2 world0).2 = none :=
  (Start_fails_iff { envIndexFails with backupAlbums := fun _ _ => .ret (0, some "read-only") }
    true true true 2 world0 (fun _ => rfl) (fun _ => rfl)).2

set_option maxHeartbeats 1000000 in
/-- **C10.** With the gate free at entry and the index provider returning when
it is called, the provider calls made by `Start` are the reference sequence of
the specification: the index call with `(index backup path, "", false, force,
retain)` if the index is wanted, then the album call with `(albums backup path,
force)` if albums are wanted and no cancellation is seen at the checkpoint.
That sequence is a subsequence of index call, album call: no call is repeated
and the album call never comes first. -/
theorem Start_calls_eq_reference (env : Env) (index albums force : Bool) (retain : Int)
    (s : World) (hfree : s.gate.held = false)
    (hidx : index = true →
      (env.backupIndex s.worker.conf.backupIndexPath "" false force retain).isRet = true) :
    providerCalls (Start env index albums force retain s).1.trace
        = providerCalls s.trace
          ++ referenceCalls s.worker.conf index albums force retain
              (s.gate.canceled || env.cancelDuringIndex)
      ∧ List.Sublist
          (referenceCalls s.worker.conf index albums force retain
            (s.gate.canceled || env.cancelDuringIndex))
          [Event.backupIndex s.worker.conf.backupIndexPath "" false force retain,
            Event.backupAlbums s.worker.conf.backupAlbumsPath force] := by
  refine ⟨?_, ?_⟩
  · rcases s with ⟨⟨held, canc⟩, ⟨conf, lr⟩, ticks, tr⟩
    simp only at hfree hidx
    subst hfree
    rcases hi : env.backupIndex conf.backupIndexPath "" false force retain with (_ | e) | r <;>
    rcases ha : env.backupAlbums conf.backupAlbumsPath force with ⟨c, (_ | e')⟩ | r' <;>
    cases index <;> cases albums <;> cases hc : env.cancelDuringIndex <;> cases canc <;>
      simp [hi, Outcome.isRet] at hidx <;>
      simp [Start, body, run, indexStage, albumStage, TimeStamp, World.now, World.emit,
        Activity.Start, Activity.Stop, Activity.Canceled, hi, ha, hc, providerCalls,
        referenceCalls, List.filter_append] <;>
      split_ifs <;> simp [List.filter_append]
  · generalize (s.gate.canceled || env.cancelDuringIndex) = b
    cases index <;> cases albums <;> cases b <;> simp [referenceCalls]

/-- Witness of `Start_calls_eq_reference`: the scenario `Start(true, true,
false, 5)` with both providers succeeding. -/
theorem Start_calls_eq_reference_witness :
    providerCalls (Start envOk true true false 5 world0).1.trace
      = [Event.backupIndex "/backup/index" "" false false 5,
          Event.backupAlbums "/backup/albums" false] :=
  (Start_calls_eq_reference envOk true true false 5 world0 rfl (fun _ => rfl)).1

end Workers
